import Mathlib

/-!
Shallow embedding of `project_repository_storage_move.go` (package `gitlab`),
the project-repository-storage-move resource module of a GitLab API client,
together with a model of the generic request/response pipeline it consumes
(`client.NewRequest` / `client.Do` / `RequestOptionFunc` / `ListOptions`),
which is repository infrastructure not contained in the analysed fragment and
is therefore modelled from the specification.

Go values are embedded value-semantically: `int` as `Int`, `string` as
`String`, pointers as `Option`, slices as `List` (a JSON `null` decoding to a
nil slice is the empty list), and JSON bodies as an inductive `Json` value.
-/

set_option autoImplicit false

namespace Gitlab

/-- A JSON value, the abstract wire format of request and response bodies. -/
inductive Json where
  | null : Json
  | bool : Bool → Json
  | num : Int → Json
  | str : String → Json
  | arr : List Json → Json
  | obj : List (String × Json) → Json
deriving Repr

/-- Modelled from the spec: the error taxonomy of §7 (`ErrInvalidRequest`,
`ErrTransport`, `ErrAPIStatus` carrying status and error body, `ErrDecode`,
`ErrCancelled`). The Go code only propagates opaque `error` values; the spec
names these kinds. -/
inductive Err where
  | invalidRequest (msg : String)
  | transport (msg : String)
  | apiStatus (status : Nat) (body : Json)
  | decodeErr (msg : String)
  | cancelled
deriving Repr

/-- A timestamp (`time.Time`), kept as its ISO-8601 wire text. -/
abbrev Time := String

/-- The anonymous `Project` struct embedded in `ProjectRepositoryStorageMove`
(source lines 44-52): project summary with a nullable creation timestamp. -/
structure StorageMoveProject where
  ID : Int
  Description : String
  Name : String
  NameWithNamespace : String
  Path : String
  PathWithNamespace : String
  CreatedAt : Option Time
deriving Repr, DecidableEq

/-- `ProjectRepositoryStorageMove` (source lines 38-53): the status of a
repository move. `CreatedAt *time.Time` is a nullable pointer, embedded as
`Option Time`. -/
structure ProjectRepositoryStorageMove where
  ID : Int
  CreatedAt : Option Time
  State : String
  SourceStorageName : String
  DestinationStorageName : String
  Project : StorageMoveProject
deriving Repr, DecidableEq

/-- The zero value of the embedded project struct (all fields zero, nil
pointer timestamp). -/
def emptyStorageMoveProject : StorageMoveProject :=
  ⟨0, "", "", "", "", "", none⟩

/-- The zero value of `ProjectRepositoryStorageMove`, as produced by
`new(ProjectRepositoryStorageMove)` before decoding. -/
def emptyStorageMove : ProjectRepositoryStorageMove :=
  ⟨0, none, "", "", "", emptyStorageMoveProject⟩

/-- Modelled from the spec: `ListOptions`, the shared pagination struct (§3,
§9); its definition is not in the analysed fragment. Page-number based (the
spec's stated common default) with a page size; zero values are "unset" and
are omitted from the query encoding. -/
structure ListOptions where
  Page : Int
  PerPage : Int
deriving Repr, DecidableEq

/-- `RetrieveAllStorageMovesOptions` (source line 59): a named alias of
`ListOptions`. -/
abbrev RetrieveAllStorageMovesOptions := ListOptions

/-- Modelled from the spec: the query-parameter encoding of `ListOptions`
performed by the Request Builder (§4.1, §8): exactly the non-zero fields are
serialized, in a stable order, as decimal-rendered key/value pairs. -/
def encodeListOptions (o : ListOptions) : List (String × String) :=
  (if o.Page ≠ 0 then [("page", toString o.Page)] else []) ++
    (if o.PerPage ≠ 0 then [("per_page", toString o.PerPage)] else [])

/-- An outbound request built by the Request Builder: HTTP method, relative
URL path, query parameters, optional JSON body. -/
structure Request where
  method : String
  url : String
  query : List (String × String)
  body : Option Json
deriving Repr

/-- `RequestOptionFunc` (modelled from the spec §3): a composable request
modifier applied in order before dispatch; it may fail. -/
def RequestOptionFunc := Request → Except Err Request

/-- Modelled from the spec: modifiers are applied after base construction, in
the order supplied; any failure short-circuits (§4.1). -/
def applyRequestOptions : Request → List RequestOptionFunc → Except Err Request
  | req, [] => .ok req
  | req, f :: fs =>
    match f req with
    | .error e => .error e
    | .ok req2 => applyRequestOptions req2 fs

/-- First-match key lookup in a decoded JSON object. -/
def lookupKey : List (String × Json) → String → Option Json
  | [], _ => none
  | (k, v) :: rest, key => if k = key then some v else lookupKey rest key

/-- Modelled from the spec / Go `encoding/json` semantics: an `int` field.
Missing key or JSON `null` leaves the zero value; a number decodes; any other
shape is a decode error. -/
def decodeIntField : Option Json → Except Err Int
  | none => .ok 0
  | some .null => .ok 0
  | some (.num n) => .ok n
  | some _ => .error (.decodeErr "expected number")

/-- Modelled from the spec / Go `encoding/json` semantics: a `string` field.
Missing key or JSON `null` leaves the zero value; a string decodes; any other
shape is a decode error. -/
def decodeStrField : Option Json → Except Err String
  | none => .ok ""
  | some .null => .ok ""
  | some (.str s) => .ok s
  | some _ => .error (.decodeErr "expected string")

/-- Modelled from the spec (§4.3, §9): a nullable `*time.Time` field. Missing
key or JSON `null` yields the explicit absent state `none`, never a zero-value
date; a timestamp string decodes to `some`; any other shape is a decode
error. -/
def decodeOptTime : Option Json → Except Err (Option Time)
  | none => .ok none
  | some .null => .ok none
  | some (.str s) => .ok (some s)
  | some _ => .error (.decodeErr "expected timestamp string or null")

/-- Decodes the embedded project object from its key/value pairs (source
lines 44-52 give the field tags). -/
def decodeProjectObj (kvs : List (String × Json)) : Except Err StorageMoveProject :=
  match decodeIntField (lookupKey kvs "id"), decodeStrField (lookupKey kvs "description"),
      decodeStrField (lookupKey kvs "name"), decodeStrField (lookupKey kvs "name_with_namespace"),
      decodeStrField (lookupKey kvs "path"), decodeStrField (lookupKey kvs "path_with_namespace"),
      decodeOptTime (lookupKey kvs "created_at") with
  | .ok i, .ok d, .ok n, .ok nn, .ok p, .ok pn, .ok ca => .ok ⟨i, d, n, nn, p, pn, ca⟩
  | .error e, _, _, _, _, _, _ => .error e
  | _, .error e, _, _, _, _, _ => .error e
  | _, _, .error e, _, _, _, _ => .error e
  | _, _, _, .error e, _, _, _ => .error e
  | _, _, _, _, .error e, _, _ => .error e
  | _, _, _, _, _, .error e, _ => .error e
  | _, _, _, _, _, _, .error e => .error e

/-- The `project` field: missing or `null` leaves the zero struct; an object
decodes field-wise; any other shape is a decode error. -/
def decodeProject : Option Json → Except Err StorageMoveProject
  | none => .ok emptyStorageMoveProject
  | some .null => .ok emptyStorageMoveProject
  | some (.obj kvs) => decodeProjectObj kvs
  | some _ => .error (.decodeErr "expected object")

/-- Decodes a `ProjectRepositoryStorageMove` from the key/value pairs of a
JSON object, per the struct tags of source lines 38-53. -/
def decodeStorageMoveObj (kvs : List (String × Json)) : Except Err ProjectRepositoryStorageMove :=
  match decodeIntField (lookupKey kvs "id"), decodeOptTime (lookupKey kvs "created_at"),
      decodeStrField (lookupKey kvs "state"),
      decodeStrField (lookupKey kvs "source_storage_name"),
      decodeStrField (lookupKey kvs "destination_storage_name"),
      decodeProject (lookupKey kvs "project") with
  | .ok i, .ok ca, .ok st, .ok src, .ok dst, .ok pr => .ok ⟨i, ca, st, src, dst, pr⟩
  | .error e, _, _, _, _, _ => .error e
  | _, .error e, _, _, _, _ => .error e
  | _, _, .error e, _, _, _ => .error e
  | _, _, _, .error e, _, _ => .error e
  | _, _, _, _, .error e, _ => .error e
  | _, _, _, _, _, .error e => .error e

/-- Modelled from the spec (§4.3) / Go `encoding/json`: decoding a body into
an already-allocated `*ProjectRepositoryStorageMove` target (the single-object
shape of the Get methods). JSON `null` is a no-op, leaving the zero value; an
object decodes field-wise. -/
def decodeStorageMove : Json → Except Err ProjectRepositoryStorageMove
  | .null => .ok emptyStorageMove
  | .obj kvs => decodeStorageMoveObj kvs
  | _ => .error (.decodeErr "expected object")

/-- One element of a `[]*ProjectRepositoryStorageMove` target: a JSON `null`
element is a nil pointer (`none`); an object allocates and decodes. -/
def decodeMovePtr : Json → Except Err (Option ProjectRepositoryStorageMove)
  | .null => .ok none
  | j =>
    match decodeStorageMove j with
    | .ok m => .ok (some m)
    | .error e => .error e

/-- Decodes the elements of a JSON array into move pointers, left to right,
first error wins. -/
def decodeMoveElems : List Json → Except Err (List (Option ProjectRepositoryStorageMove))
  | [] => .ok []
  | j :: js =>
    match decodeMovePtr j, decodeMoveElems js with
    | .ok a, .ok rest => .ok (a :: rest)
    | .error e, _ => .error e
    | .ok _, .error e => .error e

/-- Modelled from the spec (§4.3): decoding a body into a
`[]*ProjectRepositoryStorageMove` target (the sequence shape of the List and
Schedule methods). JSON `null` decodes to the nil slice (empty list). -/
def decodeStorageMoveList : Json → Except Err (List (Option ProjectRepositoryStorageMove))
  | .null => .ok []
  | .arr xs => decodeMoveElems xs
  | _ => .error (.decodeErr "expected array or null")

/-- The transport's answer to a dispatched request: either a pure transport
failure (no response exists) or a server reply with a status and a body. -/
inductive Wire where
  | transportFailure (msg : String)
  | reply (status : Nat) (body : Json)

/-- Response metadata (§3): wraps the transport response; status code and raw
body are what the resource module's callers can observe here. -/
structure Response where
  statusCode : Nat
  body : Json
deriving Repr

/-- The shared `*Client` (source line 31): immutable configuration plus the
underlying transport, which is an external collaborator modelled as a function
from the built request to the wire outcome. -/
structure Client where
  transport : Request → Wire

/-- Modelled from the spec: the Request Builder (§4.1), `client.NewRequest`,
whose code is not in the analysed fragment. For GET the options struct is
serialized as URL query parameters; a `nil` options argument is nil-safe and
contributes no query and no body (empty payload); modifiers are then applied
in order, any failure short-circuiting before dispatch. -/
def Client.NewRequest (_c : Client) (method url : String)
    (opt : Option RetrieveAllStorageMovesOptions) (options : List RequestOptionFunc) :
    Except Err Request :=
  let query :=
    match opt with
    | none => []
    | some o => encodeListOptions o
  applyRequestOptions ⟨method, url, query, none⟩ options

/-- Modelled from the spec: Dispatcher (§4.2) plus Decoder (§4.3),
`client.Do`, whose code is not in the analysed fragment. Executes exactly
once; on transport failure no response exists; a non-2xx reply yields the
response together with `ErrAPIStatus`; a 2xx reply is decoded into the
caller's target. -/
def Client.Do {α : Type} (c : Client) (req : Request) (dec : Json → Except Err α) :
    Option Response × Except Err α :=
  match c.transport req with
  | .transportFailure msg => (none, .error (.transport msg))
  | .reply status body =>
    if 200 ≤ status ∧ status < 300 then
      (some ⟨status, body⟩, dec body)
    else
      (some ⟨status, body⟩, .error (.apiStatus status body))

/-- `ProjectRepositoryStorageMoveService` (source lines 30-32): handles the
repository-storage-move methods, holding only the shared client. -/
structure ProjectRepositoryStorageMoveService where
  client : Client

/-- The interpolated path of `RetrieveAllStorageMovesForProject` (source line
87): `fmt.Sprintf` with `%d` renders the project id in signed decimal. -/
def retrieveAllForProjectURL (project : Int) : String :=
  "projects/" ++ toString project ++ "/repository_storage_moves"

/-- The interpolated path of `GetStorageMove` (source line 108). -/
def getStorageMoveURL (repositoryStorage : Int) : String :=
  "project_repository_storage_moves/" ++ toString repositoryStorage

/-- The interpolated path of `GetStorageMoveForProject` (source line 129). -/
def getStorageMoveForProjectURL (project repositoryStorage : Int) : String :=
  "projects/" ++ toString project ++ "/repository_storage_moves/" ++
    toString repositoryStorage

/-- The interpolated path of `ScheduleStorageMoveForProject` (source line
169). -/
def scheduleForProjectURL (project : Int) : String :=
  "projects/" ++ toString project ++ "/repository_storage_moves"

/-- `RetrieveAllStorageMoves` (source lines 66-79): GET
`project_repository_storage_moves` with the options struct as query, decoding
a sequence. -/
def ProjectRepositoryStorageMoveService.RetrieveAllStorageMoves
    (s : ProjectRepositoryStorageMoveService) (opts : RetrieveAllStorageMovesOptions)
    (options : List RequestOptionFunc) :
    List (Option ProjectRepositoryStorageMove) × Option Response × Option Err :=
  match s.client.NewRequest "GET" "project_repository_storage_moves" (some opts) options with
  | .error err => ([], none, some err)
  | .ok req =>
    match s.client.Do req decodeStorageMoveList with
    | (resp, .error err) => ([], resp, some err)
    | (resp, .ok psms) => (psms, resp, none)

/-- `RetrieveAllStorageMovesForProject` (source lines 86-101): GET
`projects/%d/repository_storage_moves` with the options struct as query,
decoding a sequence. -/
def ProjectRepositoryStorageMoveService.RetrieveAllStorageMovesForProject
    (s : ProjectRepositoryStorageMoveService) (project : Int)
    (opts : RetrieveAllStorageMovesOptions) (options : List RequestOptionFunc) :
    List (Option ProjectRepositoryStorageMove) × Option Response × Option Err :=
  match s.client.NewRequest "GET" (retrieveAllForProjectURL project) (some opts) options with
  | .error err => ([], none, some err)
  | .ok req =>
    match s.client.Do req decodeStorageMoveList with
    | (resp, .error err) => ([], resp, some err)
    | (resp, .ok psms) => (psms, resp, none)

/-- `GetStorageMove` (source lines 107-122): GET
`project_repository_storage_moves/%d` with nil options, decoding a single
move into a fresh allocation. -/
def ProjectRepositoryStorageMoveService.GetStorageMove
    (s : ProjectRepositoryStorageMoveService) (repositoryStorage : Int)
    (options : List RequestOptionFunc) :
    Option ProjectRepositoryStorageMove × Option Response × Option Err :=
  match s.client.NewRequest "GET" (getStorageMoveURL repositoryStorage) none options with
  | .error err => (none, none, some err)
  | .ok req =>
    match s.client.Do req decodeStorageMove with
    | (resp, .error err) => (none, resp, some err)
    | (resp, .ok psm) => (some psm, resp, none)

/-- `GetStorageMoveForProject` (source lines 128-143): GET
`projects/%d/repository_storage_moves/%d` with nil options, decoding a single
move into a fresh allocation. -/
def ProjectRepositoryStorageMoveService.GetStorageMoveForProject
    (s : ProjectRepositoryStorageMoveService) (project repositoryStorage : Int)
    (options : List RequestOptionFunc) :
    Option ProjectRepositoryStorageMove × Option Response × Option Err :=
  match s.client.NewRequest "GET" (getStorageMoveForProjectURL project repositoryStorage)
      none options with
  | .error err => (none, none, some err)
  | .ok req =>
    match s.client.Do req decodeStorageMove with
    | (resp, .error err) => (none, resp, some err)
    | (resp, .ok psm) => (some psm, resp, none)

/-- `ScheduleAllStorageMoves` (source lines 149-162): POST
`project_repository_storage_moves` with nil body, decoding a sequence. -/
def ProjectRepositoryStorageMoveService.ScheduleAllStorageMoves
    (s : ProjectRepositoryStorageMoveService) (options : List RequestOptionFunc) :
    List (Option ProjectRepositoryStorageMove) × Option Response × Option Err :=
  match s.client.NewRequest "POST" "project_repository_storage_moves" none options with
  | .error err => ([], none, some err)
  | .ok req =>
    match s.client.Do req decodeStorageMoveList with
    | (resp, .error err) => ([], resp, some err)
    | (resp, .ok psms) => (psms, resp, none)

/-- `ScheduleStorageMoveForProject` (source lines 168-183): POST
`projects/%d/repository_storage_moves` with nil body, decoding a sequence. -/
def ProjectRepositoryStorageMoveService.ScheduleStorageMoveForProject
    (s : ProjectRepositoryStorageMoveService) (project : Int)
    (options : List RequestOptionFunc) :
    List (Option ProjectRepositoryStorageMove) × Option Response × Option Err :=
  match s.client.NewRequest "POST" (scheduleForProjectURL project) none options with
  | .error err => ([], none, some err)
  | .ok req =>
    match s.client.Do req decodeStorageMoveList with
    | (resp, .error err) => ([], resp, some err)
    | (resp, .ok psms) => (psms, resp, none)

/-- Repackaging of a `client.Do` outcome into the three-value return of a
single-object method, used only to state observational theorems about the
methods' pipelines. -/
def repackSingle (r : Option Response × Except Err ProjectRepositoryStorageMove) :
    Option ProjectRepositoryStorageMove × Option Response × Option Err :=
  match r with
  | (resp, .error e) => (none, resp, some e)
  | (resp, .ok a) => (some a, resp, none)

/-- Repackaging of a `client.Do` outcome into the three-value return of a
sequence method, used only to state observational theorems about the methods'
pipelines. -/
def repackList
    (r : Option Response × Except Err (List (Option ProjectRepositoryStorageMove))) :
    List (Option ProjectRepositoryStorageMove) × Option Response × Option Err :=
  match r with
  | (resp, .error e) => ([], resp, some e)
  | (resp, .ok a) => (a, resp, none)

/-- The operations the resource module defines, one entry per exported method
of `ProjectRepositoryStorageMoveService` in the source file, with its HTTP
verb. -/
def resourceModuleOps : List (String × String) :=
  [("RetrieveAllStorageMoves", "GET"),
   ("RetrieveAllStorageMovesForProject", "GET"),
   ("GetStorageMove", "GET"),
   ("GetStorageMoveForProject", "GET"),
   ("ScheduleAllStorageMoves", "POST"),
   ("ScheduleStorageMoveForProject", "POST")]

/-- With no modifiers, `RetrieveAllStorageMoves` is exactly the dispatch of a
GET to `project_repository_storage_moves` carrying the encoded options as
query, repackaged. -/
theorem run_retrieveAll (c : Client) (opts : RetrieveAllStorageMovesOptions) :
    ProjectRepositoryStorageMoveService.RetrieveAllStorageMoves ⟨c⟩ opts [] =
      repackList (c.Do ⟨"GET", "project_repository_storage_moves", encodeListOptions opts, none⟩
        decodeStorageMoveList) := by
  show repackList _ = _
  rfl

/-- With no modifiers, `RetrieveAllStorageMovesForProject` is exactly the
dispatch of a GET to its interpolated path, repackaged. -/
theorem run_retrieveAllForProject (c : Client) (project : Int)
    (opts : RetrieveAllStorageMovesOptions) :
    ProjectRepositoryStorageMoveService.RetrieveAllStorageMovesForProject ⟨c⟩ project opts [] =
      repackList (c.Do ⟨"GET", retrieveAllForProjectURL project, encodeListOptions opts, none⟩
        decodeStorageMoveList) := by
  show repackList _ = _
  rfl

/-- With no modifiers, `GetStorageMove` is exactly the dispatch of a GET to
its interpolated path with empty query and body, repackaged. -/
theorem run_getStorageMove (c : Client) (repositoryStorage : Int) :
    ProjectRepositoryStorageMoveService.GetStorageMove ⟨c⟩ repositoryStorage [] =
      repackSingle (c.Do ⟨"GET", getStorageMoveURL repositoryStorage, [], none⟩
        decodeStorageMove) := by
  show repackSingle _ = _
  rfl

/-- With no modifiers, `GetStorageMoveForProject` is exactly the dispatch of a
GET to its interpolated path with empty query and body, repackaged. -/
theorem run_getStorageMoveForProject (c : Client) (project repositoryStorage : Int) :
    ProjectRepositoryStorageMoveService.GetStorageMoveForProject ⟨c⟩ project repositoryStorage [] =
      repackSingle (c.Do ⟨"GET", getStorageMoveForProjectURL project repositoryStorage, [], none⟩
        decodeStorageMove) := by
  show repackSingle _ = _
  rfl

/-- With no modifiers, `ScheduleAllStorageMoves` is exactly the dispatch of a
POST to `project_repository_storage_moves` with empty query and body,
repackaged. -/
theorem run_scheduleAll (c : Client) :
    ProjectRepositoryStorageMoveService.ScheduleAllStorageMoves ⟨c⟩ [] =
      repackList (c.Do ⟨"POST", "project_repository_storage_moves", [], none⟩
        decodeStorageMoveList) := by
  show repackList _ = _
  rfl

/-- With no modifiers, `ScheduleStorageMoveForProject` is exactly the dispatch
of a POST to its interpolated path with empty query and body, repackaged. -/
theorem run_scheduleForProject (c : Client) (project : Int) :
    ProjectRepositoryStorageMoveService.ScheduleStorageMoveForProject ⟨c⟩ project [] =
      repackList (c.Do ⟨"POST", scheduleForProjectURL project, [], none⟩
        decodeStorageMoveList) := by
  show repackList _ = _
  rfl

/-- C2: for every pair of integers, `GetStorageMoveForProject` computes the
relative path `projects/<project>/repository_storage_moves/<id>` with both
components in signed decimal, passes a nil options argument to the builder so
the base request carries no query parameters, and dispatches exactly that
request; modifiers are the only possible source of further parameters. -/
theorem getStorageMoveForProject_exact_path (c : Client) (p i : Int)
    (mods : List RequestOptionFunc) :
    getStorageMoveForProjectURL p i =
        "projects/" ++ toString p ++ "/repository_storage_moves/" ++ toString i ∧
    getStorageMoveForProjectURL 7 42 = "projects/7/repository_storage_moves/42" ∧
    getStorageMoveForProjectURL (-3) 0 = "projects/-3/repository_storage_moves/0" ∧
    c.NewRequest "GET" (getStorageMoveForProjectURL p i) none mods =
        applyRequestOptions ⟨"GET", getStorageMoveForProjectURL p i, [], none⟩ mods ∧
    c.NewRequest "GET" (getStorageMoveForProjectURL p i) none [] =
        .ok ⟨"GET", getStorageMoveForProjectURL p i, [], none⟩ ∧
    ProjectRepositoryStorageMoveService.GetStorageMoveForProject ⟨c⟩ p i [] =
        repackSingle (c.Do ⟨"GET", getStorageMoveForProjectURL p i, [], none⟩
          decodeStorageMove) :=
  ⟨rfl, rfl, rfl, rfl, rfl, run_getStorageMoveForProject c p i⟩

/-- C4: both POST operations pass a nil options/body argument to the builder;
building with a nil body is nil-safe, producing a request with an empty
payload, and the methods proceed to dispatch it. -/
theorem schedule_nil_body_safe (c : Client) (p : Int) :
    c.NewRequest "POST" "project_repository_storage_moves" none [] =
        .ok ⟨"POST", "project_repository_storage_moves", [], none⟩ ∧
    c.NewRequest "POST" (scheduleForProjectURL p) none [] =
        .ok ⟨"POST", scheduleForProjectURL p, [], none⟩ ∧
    (⟨"POST", "project_repository_storage_moves", [], none⟩ : Request).body = none ∧
    ProjectRepositoryStorageMoveService.ScheduleAllStorageMoves ⟨c⟩ [] =
        repackList (c.Do ⟨"POST", "project_repository_storage_moves", [], none⟩
          decodeStorageMoveList) ∧
    ProjectRepositoryStorageMoveService.ScheduleStorageMoveForProject ⟨c⟩ p [] =
        repackList (c.Do ⟨"POST", scheduleForProjectURL p, [], none⟩
          decodeStorageMoveList) :=
  ⟨rfl, rfl, rfl, run_scheduleAll c, run_scheduleForProject c p⟩

/-- C9: no method validates its integer identifiers: every integer, zero and
negatives included, is interpolated in signed decimal (project -5 yields the
path component -5), the builder accepts the path, and the methods proceed to
build and dispatch instead of returning a pre-dispatch invalid-request
error. -/
theorem no_id_validation (c : Client) (p i : Int) :
    retrieveAllForProjectURL (-5) = "projects/-5/repository_storage_moves" ∧
    retrieveAllForProjectURL p =
        "projects/" ++ toString p ++ "/repository_storage_moves" ∧
    getStorageMoveURL i = "project_repository_storage_moves/" ++ toString i ∧
    getStorageMoveForProjectURL p i =
        "projects/" ++ toString p ++ "/repository_storage_moves/" ++ toString i ∧
    c.NewRequest "GET" (getStorageMoveURL i) none [] =
        .ok ⟨"GET", getStorageMoveURL i, [], none⟩ ∧
    (∀ opts : RetrieveAllStorageMovesOptions,
      ProjectRepositoryStorageMoveService.RetrieveAllStorageMovesForProject ⟨c⟩ p opts [] =
        repackList (c.Do ⟨"GET", retrieveAllForProjectURL p, encodeListOptions opts, none⟩
          decodeStorageMoveList)) ∧
    ProjectRepositoryStorageMoveService.GetStorageMove ⟨c⟩ i [] =
        repackSingle (c.Do ⟨"GET", getStorageMoveURL i, [], none⟩ decodeStorageMove) ∧
    ProjectRepositoryStorageMoveService.GetStorageMoveForProject ⟨c⟩ p i [] =
        repackSingle (c.Do ⟨"GET", getStorageMoveForProjectURL p i, [], none⟩
          decodeStorageMove) :=
  ⟨rfl, rfl, rfl, rfl, rfl, fun opts => run_retrieveAllForProject c p opts,
   run_getStorageMove c i, run_getStorageMoveForProject c p i⟩

/-- C3 counterexample: the resource module does not expose exactly five
operations; the source file defines six methods on
`ProjectRepositoryStorageMoveService`. -/
theorem resourceModuleOps_not_five : ¬ resourceModuleOps.length = 5 := by
  decide

/-- C3 amended: the resource module exposes exactly six operations, each a
pure composition of the request builder, dispatcher, and decoder, with the
verbs, paths, inputs, and output shapes of the table in spec section 4.4. -/
theorem resourceModule_six_ops (c : Client) (p i : Int)
    (opts : RetrieveAllStorageMovesOptions) :
    resourceModuleOps.length = 6 ∧
    ProjectRepositoryStorageMoveService.RetrieveAllStorageMoves ⟨c⟩ opts [] =
        repackList (c.Do ⟨"GET", "project_repository_storage_moves",
          encodeListOptions opts, none⟩ decodeStorageMoveList) ∧
    ProjectRepositoryStorageMoveService.RetrieveAllStorageMovesForProject ⟨c⟩ p opts [] =
        repackList (c.Do ⟨"GET", retrieveAllForProjectURL p, encodeListOptions opts, none⟩
          decodeStorageMoveList) ∧
    ProjectRepositoryStorageMoveService.GetStorageMove ⟨c⟩ i [] =
        repackSingle (c.Do ⟨"GET", getStorageMoveURL i, [], none⟩ decodeStorageMove) ∧
    ProjectRepositoryStorageMoveService.GetStorageMoveForProject ⟨c⟩ p i [] =
        repackSingle (c.Do ⟨"GET", getStorageMoveForProjectURL p i, [], none⟩
          decodeStorageMove) ∧
    ProjectRepositoryStorageMoveService.ScheduleAllStorageMoves ⟨c⟩ [] =
        repackList (c.Do ⟨"POST", "project_repository_storage_moves", [], none⟩
          decodeStorageMoveList) ∧
    ProjectRepositoryStorageMoveService.ScheduleStorageMoveForProject ⟨c⟩ p [] =
        repackList (c.Do ⟨"POST", scheduleForProjectURL p, [], none⟩
          decodeStorageMoveList) ∧
    retrieveAllForProjectURL p =
        "projects/" ++ toString p ++ "/repository_storage_moves" ∧
    getStorageMoveURL i = "project_repository_storage_moves/" ++ toString i ∧
    getStorageMoveForProjectURL p i =
        "projects/" ++ toString p ++ "/repository_storage_moves/" ++ toString i ∧
    scheduleForProjectURL p =
        "projects/" ++ toString p ++ "/repository_storage_moves" :=
  ⟨rfl, run_retrieveAll c opts, run_retrieveAllForProject c p opts, run_getStorageMove c i,
   run_getStorageMoveForProject c p i, run_scheduleAll c, run_scheduleForProject c p,
   rfl, rfl, rfl, rfl⟩

/-- The body of the C7 scenario: HTTP 200 with a one-element array describing
a scheduled move of project 7. -/
def scheduleScenarioBody : Json :=
  .arr [.obj [("id", .num 1), ("state", .str "scheduled"),
              ("source_storage_name", .str "default"),
              ("destination_storage_name", .str "nfs-02"),
              ("project", .obj [("id", .num 7), ("name", .str "demo")])]]

/-- A client whose transport always answers the C7 scenario reply. -/
def scheduleScenarioClient : Client :=
  ⟨fun _ => .reply 200 scheduleScenarioBody⟩

/-- The decoded move of the C7 scenario. -/
def scheduleScenarioMove : ProjectRepositoryStorageMove :=
  ⟨1, none, "scheduled", "default", "nfs-02", ⟨7, "", "demo", "", "", "", none⟩⟩

/-- C7: when the server answers `ScheduleAllStorageMoves` with HTTP 200 and
the scenario body, the method returns a one-element sequence whose sole
element has `ID = 1` and `State = "scheduled"`, together with the response and
no error. -/
theorem scheduleAll_scenario :
    ProjectRepositoryStorageMoveService.ScheduleAllStorageMoves ⟨scheduleScenarioClient⟩ [] =
        ([some scheduleScenarioMove], some ⟨200, scheduleScenarioBody⟩, none) ∧
    scheduleScenarioMove.ID = 1 ∧
    scheduleScenarioMove.State = "scheduled" ∧
    [some scheduleScenarioMove].length = 1 :=
  ⟨rfl, rfl, rfl, rfl⟩

/-- C5: the query produced for the List operations contains exactly the
non-zero fields of the options value, no other keys occur, the encoding is a
deterministic function of the options (encoding twice yields identical
queries), and both List operations hand exactly this query to the builder. -/
theorem listOptions_query_exact (o : RetrieveAllStorageMovesOptions) (c : Client) (p : Int) :
    (∀ v, ("page", v) ∈ encodeListOptions o ↔ o.Page ≠ 0 ∧ v = toString o.Page) ∧
    (∀ v, ("per_page", v) ∈ encodeListOptions o ↔ o.PerPage ≠ 0 ∧ v = toString o.PerPage) ∧
    (∀ kv, kv ∈ encodeListOptions o → kv.1 = "page" ∨ kv.1 = "per_page") ∧
    encodeListOptions o = encodeListOptions o ∧
    c.NewRequest "GET" "project_repository_storage_moves" (some o) [] =
        .ok ⟨"GET", "project_repository_storage_moves", encodeListOptions o, none⟩ ∧
    c.NewRequest "GET" (retrieveAllForProjectURL p) (some o) [] =
        .ok ⟨"GET", retrieveAllForProjectURL p, encodeListOptions o, none⟩ := by
  refine ⟨?_, ?_, ?_, rfl, rfl, rfl⟩
  · intro v
    unfold encodeListOptions
    by_cases hp : o.Page = 0 <;> by_cases hq : o.PerPage = 0 <;>
      simp [hp, hq, Prod.ext_iff, eq_comm]
  · intro v
    unfold encodeListOptions
    by_cases hp : o.Page = 0 <;> by_cases hq : o.PerPage = 0 <;>
      simp [hp, hq, Prod.ext_iff, eq_comm]
  · rintro ⟨k, v⟩ hkv
    unfold encodeListOptions at hkv
    rcases List.mem_append.mp hkv with h | h <;>
      [skip; skip] <;> split at h <;> simp_all

/-- C5 witness: at page 2, page size 50, the characterization yields exactly
the two expected pairs and classifies their keys. -/
theorem listOptions_query_exact_witness :
    ("page", "2") ∈ encodeListOptions ⟨2, 50⟩ ∧
    ("per_page", "50") ∈ encodeListOptions ⟨2, 50⟩ ∧
    ((("page", "2") : String × String).1 = "page" ∨
      (("page", "2") : String × String).1 = "per_page") :=
  ⟨((listOptions_query_exact ⟨2, 50⟩ ⟨fun _ => .reply 200 .null⟩ 1).1 "2").mpr
      ⟨by decide, by decide⟩,
   ((listOptions_query_exact ⟨2, 50⟩ ⟨fun _ => .reply 200 .null⟩ 1).2.1 "50").mpr
      ⟨by decide, by decide⟩,
   (listOptions_query_exact ⟨2, 50⟩ ⟨fun _ => .reply 200 .null⟩ 1).2.2.1 ("page", "2")
      (((listOptions_query_exact ⟨2, 50⟩ ⟨fun _ => .reply 200 .null⟩ 1).1 "2").mpr
        ⟨by decide, by decide⟩)⟩

/-- If decoding a move object succeeds, the decoded `CreatedAt` is exactly
what `decodeOptTime` produced from the object's `created_at` key. -/
theorem decodeStorageMoveObj_createdAt (kvs : List (String × Json))
    (m : ProjectRepositoryStorageMove) (hm : decodeStorageMoveObj kvs = .ok m) :
    decodeOptTime (lookupKey kvs "created_at") = .ok m.CreatedAt := by
  unfold decodeStorageMoveObj at hm
  split at hm
  all_goals first
    | exact Except.noConfusion hm
    | (cases hm; assumption)

/-- If decoding a move object succeeds, the decoded `Project` is exactly what
`decodeProject` produced from the object's `project` key. -/
theorem decodeStorageMoveObj_project (kvs : List (String × Json))
    (m : ProjectRepositoryStorageMove) (hm : decodeStorageMoveObj kvs = .ok m) :
    decodeProject (lookupKey kvs "project") = .ok m.Project := by
  unfold decodeStorageMoveObj at hm
  split at hm
  all_goals first
    | exact Except.noConfusion hm
    | (cases hm; assumption)

/-- If decoding a project object succeeds, the decoded `CreatedAt` is exactly
what `decodeOptTime` produced from the object's `created_at` key. -/
theorem decodeProjectObj_createdAt (kvs : List (String × Json))
    (pr : StorageMoveProject) (hm : decodeProjectObj kvs = .ok pr) :
    decodeOptTime (lookupKey kvs "created_at") = .ok pr.CreatedAt := by
  unfold decodeProjectObj at hm
  split at hm
  all_goals first
    | exact Except.noConfusion hm
    | (cases hm; assumption)

/-- C6: decoding a StorageMove body whose `created_at` is JSON `null` yields
`CreatedAt = none` (and likewise for the embedded project's `created_at`), an
explicit absent state distinct from every real timestamp — never a zero-value
date. -/
theorem createdAt_null_decodes_absent (kvs pkvs : List (String × Json))
    (m : ProjectRepositoryStorageMove) :
    (lookupKey kvs "created_at" = some .null →
      decodeStorageMove (.obj kvs) = .ok m → m.CreatedAt = none) ∧
    (lookupKey kvs "project" = some (.obj pkvs) →
      lookupKey pkvs "created_at" = some .null →
      decodeStorageMove (.obj kvs) = .ok m → m.Project.CreatedAt = none) ∧
    (∀ t : Time, some t ≠ (none : Option Time)) := by
  refine ⟨?_, ?_, fun t h => Option.noConfusion h⟩
  · intro hca hm
    have h := decodeStorageMoveObj_createdAt kvs m hm
    rw [hca] at h
    simp only [decodeOptTime, Except.ok.injEq] at h
    exact h.symm
  · intro hpr hpca hm
    have h := decodeStorageMoveObj_project kvs m hm
    rw [hpr] at h
    have h2 := decodeProjectObj_createdAt pkvs m.Project h
    rw [hpca] at h2
    simp only [decodeOptTime, Except.ok.injEq] at h2
    exact h2.symm

/-- The project object of the C6 witness body. -/
def c6pkvs : List (String × Json) :=
  [("id", .num 7), ("created_at", .null)]

/-- The C6 witness body: a move object whose `created_at` (and whose
project's `created_at`) is JSON `null`. -/
def c6kvs : List (String × Json) :=
  [("id", .num 5), ("created_at", .null), ("state", .str "started"),
   ("project", .obj c6pkvs)]

/-- The decoded value of the C6 witness body. -/
def c6move : ProjectRepositoryStorageMove :=
  ⟨5, none, "started", "", "", ⟨7, "", "", "", "", "", none⟩⟩

/-- C6 witness: on the concrete body with `created_at: null` at both levels,
decoding succeeds and both timestamps land in the absent state. -/
theorem createdAt_null_decodes_absent_witness :
    c6move.CreatedAt = none ∧ c6move.Project.CreatedAt = none :=
  ⟨(createdAt_null_decodes_absent c6kvs c6pkvs c6move).1 rfl rfl,
   (createdAt_null_decodes_absent c6kvs c6pkvs c6move).2.1 rfl rfl rfl⟩

/-- C10: on every call that returns no error, the two Get methods return a
present (non-nil) move, while the sequence methods return the empty sequence
whenever a 2xx body decodes to JSON `null` (the nil slice) or to the empty
array. -/
theorem get_success_present (s : ProjectRepositoryStorageMoveService) (p i : Int)
    (mods : List RequestOptionFunc) (r : Option ProjectRepositoryStorageMove)
    (resp : Option Response) :
    (s.GetStorageMove i mods = (r, resp, none) → ∃ m, r = some m) ∧
    (s.GetStorageMoveForProject p i mods = (r, resp, none) → ∃ m, r = some m) ∧
    (∀ st : Nat, 200 ≤ st → st < 300 →
      ∀ body, body = Json.null ∨ body = Json.arr [] →
      ProjectRepositoryStorageMoveService.RetrieveAllStorageMoves
          ⟨⟨fun _ => .reply st body⟩⟩ ⟨0, 0⟩ [] = ([], some ⟨st, body⟩, none) ∧
      ProjectRepositoryStorageMoveService.ScheduleAllStorageMoves
          ⟨⟨fun _ => .reply st body⟩⟩ [] = ([], some ⟨st, body⟩, none)) := by
  refine ⟨?_, ?_, ?_⟩
  · intro h
    unfold ProjectRepositoryStorageMoveService.GetStorageMove at h
    cases hb : s.client.NewRequest "GET" (getStorageMoveURL i) none mods with
    | error e => rw [hb] at h; simp at h
    | ok req =>
      simp only [hb] at h
      rcases hd : s.client.Do req decodeStorageMove with ⟨resp2, res⟩
      rw [hd] at h
      cases res with
      | error e => simp at h
      | ok a => simp at h; exact ⟨a, h.1.symm⟩
  · intro h
    unfold ProjectRepositoryStorageMoveService.GetStorageMoveForProject at h
    cases hb : s.client.NewRequest "GET" (getStorageMoveForProjectURL p i) none mods with
    | error e => rw [hb] at h; simp at h
    | ok req =>
      simp only [hb] at h
      rcases hd : s.client.Do req decodeStorageMove with ⟨resp2, res⟩
      rw [hd] at h
      cases res with
      | error e => simp at h
      | ok a => simp at h; exact ⟨a, h.1.symm⟩
  · intro st h1 h2 body hbody
    rcases hbody with rfl | rfl <;>
      exact ⟨by simp [run_retrieveAll, Client.Do, repackList, decodeStorageMoveList,
                decodeMoveElems, encodeListOptions, h1, h2],
             by simp [run_scheduleAll, Client.Do, repackList, decodeStorageMoveList,
                decodeMoveElems, h1, h2]⟩

/-- A client whose transport always answers HTTP 200 with a JSON `null`
body. -/
def c10client : Client := ⟨fun _ => .reply 200 .null⟩

/-- C10 witness: with a 200/`null` reply, `GetStorageMove` succeeds with a
present move and `RetrieveAllStorageMoves` succeeds with the empty
sequence. -/
theorem get_success_present_witness :
    (∃ m, (some emptyStorageMove : Option ProjectRepositoryStorageMove) = some m) ∧
    ProjectRepositoryStorageMoveService.RetrieveAllStorageMoves ⟨c10client⟩ ⟨0, 0⟩ [] =
        ([], some ⟨200, .null⟩, none) :=
  ⟨(get_success_present ⟨c10client⟩ 0 1 [] (some emptyStorageMove)
      (some ⟨200, .null⟩)).1 rfl,
   ((get_success_present ⟨c10client⟩ 0 1 [] (some emptyStorageMove)
      (some ⟨200, .null⟩)).2.2 200 (by decide) (by decide) .null (Or.inl rfl)).1⟩

/-- A modifier that always fails, exercising builder failure. -/
def failMod : RequestOptionFunc := fun _ => .error (.invalidRequest "boom")

/-- The 404 error body of the spec's scenario. -/
def notFoundBody : Json := .obj [("message", .str "404 Not Found")]

/-- A client whose transport always answers HTTP 404 with the scenario
body. -/
def client404 : Client := ⟨fun _ => .reply 404 notFoundBody⟩

/-- C1: for every resource method, a builder failure (for instance a failing
modifier) yields the zero-value result, no response, and the builder's error,
with nothing dispatched; a dispatch or decode failure after the request was
built yields the zero-value result, the response value produced by the
dispatcher (present on any server reply, even an API-status error, absent on
transport failure), and the propagated error unchanged. -/
theorem pipeline_error_propagation (s : ProjectRepositoryStorageMoveService)
    (p i : Int) (opts : RetrieveAllStorageMovesOptions)
    (mods : List RequestOptionFunc) (e : Err) (req : Request) (resp : Option Response) :
    (s.client.NewRequest "GET" "project_repository_storage_moves" (some opts) mods = .error e →
      s.RetrieveAllStorageMoves opts mods = ([], none, some e)) ∧
    (s.client.NewRequest "GET" (retrieveAllForProjectURL p) (some opts) mods = .error e →
      s.RetrieveAllStorageMovesForProject p opts mods = ([], none, some e)) ∧
    (s.client.NewRequest "GET" (getStorageMoveURL i) none mods = .error e →
      s.GetStorageMove i mods = (none, none, some e)) ∧
    (s.client.NewRequest "GET" (getStorageMoveForProjectURL p i) none mods = .error e →
      s.GetStorageMoveForProject p i mods = (none, none, some e)) ∧
    (s.client.NewRequest "POST" "project_repository_storage_moves" none mods = .error e →
      s.ScheduleAllStorageMoves mods = ([], none, some e)) ∧
    (s.client.NewRequest "POST" (scheduleForProjectURL p) none mods = .error e →
      s.ScheduleStorageMoveForProject p mods = ([], none, some e)) ∧
    (s.client.NewRequest "GET" "project_repository_storage_moves" (some opts) mods = .ok req →
      s.client.Do req decodeStorageMoveList = (resp, .error e) →
      s.RetrieveAllStorageMoves opts mods = ([], resp, some e)) ∧
    (s.client.NewRequest "GET" (retrieveAllForProjectURL p) (some opts) mods = .ok req →
      s.client.Do req decodeStorageMoveList = (resp, .error e) →
      s.RetrieveAllStorageMovesForProject p opts mods = ([], resp, some e)) ∧
    (s.client.NewRequest "GET" (getStorageMoveURL i) none mods = .ok req →
      s.client.Do req decodeStorageMove = (resp, .error e) →
      s.GetStorageMove i mods = (none, resp, some e)) ∧
    (s.client.NewRequest "GET" (getStorageMoveForProjectURL p i) none mods = .ok req →
      s.client.Do req decodeStorageMove = (resp, .error e) →
      s.GetStorageMoveForProject p i mods = (none, resp, some e)) ∧
    (s.client.NewRequest "POST" "project_repository_storage_moves" none mods = .ok req →
      s.client.Do req decodeStorageMoveList = (resp, .error e) →
      s.ScheduleAllStorageMoves mods = ([], resp, some e)) ∧
    (s.client.NewRequest "POST" (scheduleForProjectURL p) none mods = .ok req →
      s.client.Do req decodeStorageMoveList = (resp, .error e) →
      s.ScheduleStorageMoveForProject p mods = ([], resp, some e)) ∧
    (∀ req2 msg, s.client.transport req2 = .transportFailure msg →
      (s.client.Do req2 decodeStorageMoveList).1 = none) ∧
    (∀ req2 st body, s.client.transport req2 = .reply st body →
      (s.client.Do req2 decodeStorageMoveList).1 = some ⟨st, body⟩) := by
  refine ⟨?_, ?_, ?_, ?_, ?_, ?_, ?_, ?_, ?_, ?_, ?_, ?_, ?_, ?_⟩
  · intro hb
    simp only [ProjectRepositoryStorageMoveService.RetrieveAllStorageMoves, hb]
  · intro hb
    simp only [ProjectRepositoryStorageMoveService.RetrieveAllStorageMovesForProject, hb]
  · intro hb
    simp only [ProjectRepositoryStorageMoveService.GetStorageMove, hb]
  · intro hb
    simp only [ProjectRepositoryStorageMoveService.GetStorageMoveForProject, hb]
  · intro hb
    simp only [ProjectRepositoryStorageMoveService.ScheduleAllStorageMoves, hb]
  · intro hb
    simp only [ProjectRepositoryStorageMoveService.ScheduleStorageMoveForProject, hb]
  · intro hb hd
    simp only [ProjectRepositoryStorageMoveService.RetrieveAllStorageMoves, hb, hd]
  · intro hb hd
    simp only [ProjectRepositoryStorageMoveService.RetrieveAllStorageMovesForProject, hb, hd]
  · intro hb hd
    simp only [ProjectRepositoryStorageMoveService.GetStorageMove, hb, hd]
  · intro hb hd
    simp only [ProjectRepositoryStorageMoveService.GetStorageMoveForProject, hb, hd]
  · intro hb hd
    simp only [ProjectRepositoryStorageMoveService.ScheduleAllStorageMoves, hb, hd]
  · intro hb hd
    simp only [ProjectRepositoryStorageMoveService.ScheduleStorageMoveForProject, hb, hd]
  · intro req2 msg ht
    simp only [Client.Do, ht]
  · intro req2 st body ht
    simp only [Client.Do, ht]
    split <;> rfl

/-- C1 witness: a failing modifier makes `GetStorageMove` return the
builder's error with no response and no dispatch; the 404 scenario makes
`GetStorageMove 999999` return no move, the 404 response, and the unchanged
API-status error. -/
theorem pipeline_error_propagation_witness :
    ProjectRepositoryStorageMoveService.GetStorageMove ⟨client404⟩ 1 [failMod] =
        (none, none, some (.invalidRequest "boom")) ∧
    ProjectRepositoryStorageMoveService.GetStorageMove ⟨client404⟩ 999999 [] =
        (none, some ⟨404, notFoundBody⟩, some (.apiStatus 404 notFoundBody)) :=
  ⟨(pipeline_error_propagation ⟨client404⟩ 0 1 ⟨0, 0⟩ [failMod] (.invalidRequest "boom")
      ⟨"GET", "", [], none⟩ none).2.2.1 rfl,
   (pipeline_error_propagation ⟨client404⟩ 0 999999 ⟨0, 0⟩ [] (.apiStatus 404 notFoundBody)
      ⟨"GET", getStorageMoveURL 999999, [], none⟩
      (some ⟨404, notFoundBody⟩)).2.2.2.2.2.2.2.2.1 rfl rfl⟩

end Gitlab
